import Mathlib

/-!
Shallow embedding of the osmgeocoder address-resolution engine
(`src/osmgeocoder/geocoder.py`) and proofs about it.

Conventions of the embedding:
* Python dicts with optional string keys (`parsed_address`, result rows)
  become structures of `Option String` fields; `'k' in d` becomes `.isSome`.
* Numeric SQL values (distances, trigram expression values) are modelled
  as rationals `ℚ`.
* Exceptions (`StopIteration` from `next` on an exhausted generator,
  `IndexError` from indexing an empty list) become an explicit error type.
* SQL fragments the Python code assembles by string formatting are kept as
  the literal strings the code produces; the ORDER BY clause is additionally
  represented as a structured list of sort keys whose lexicographic
  semantics is spelled out (`ranksBefore`).
-/

namespace OsmGeocoder

/-- The parsed address dict produced by the postal service (or the fallback
`\x7b'road': search_term\x7d`).  A missing dict key is `none`. -/
structure ParsedAddress where
  road : Option String := none
  house_number : Option String := none
  postcode : Option String := none
  city : Option String := none
deriving DecidableEq, Repr

/-- Python exceptions that the geocoder code can raise. -/
inductive PyError where
  /-- raised by `next(gen)` when the generator yields nothing -/
  | stopIteration
  /-- raised by `lst[0]` on an empty list -/
  | indexError
deriving DecidableEq, Repr

/-- Outcome of `post(postal_service_url + '/split', ...)` as observable at the
call site in `_fetch_coordinate`.  The call sets no `timeout=` argument, so the
transport failures `requests` can raise here are the `ConnectionError` family:
a refused connection, or a connect-phase timeout (`ConnectTimeout`, a subclass
of `ConnectionError`).  A reply carries an HTTP status code and the decoded
JSON array body (a list of parsed-address dicts). -/
inductive TransportResult where
  /-- the connection was refused (`requests.exceptions.ConnectionError`) -/
  | connRefused
  /-- the connect phase timed out (`requests.exceptions.ConnectTimeout`,
  a subclass of `ConnectionError`) -/
  | connectTimeout
  /-- an HTTP response: status code and JSON array body -/
  | response (status : Nat) (body : List ParsedAddress)
deriving DecidableEq, Repr

/-- The parse step of `_fetch_coordinate` (geocoder.py lines 108-115):
`try: response = post(...); if response.status_code == 200:
parsed_address = response.json()[0] else: parsed_address = \x7b'road': search_term\x7d
except ConnectionError: parsed_address = \x7b'road': search_term\x7d`.
The `except ConnectionError` clause catches both members of the
`ConnectionError` family; `response.json()[0]` on an empty array raises
`IndexError`, which no handler catches. -/
def parseStep (search_term : String) : TransportResult → Except PyError ParsedAddress
  | .connRefused => .ok { road := some search_term }
  | .connectTimeout => .ok { road := some search_term }
  | .response status body =>
      if status = 200 then
        match body with
        | [] => .error .indexError
        | a :: _ => .ok a
      else .ok { road := some search_term }

/-- Which of the three SQL templates `_fetch_coordinate` picks. -/
inductive Strategy where
  | postcodeBased
  | cityBased
  | roadOnly
deriving DecidableEq, Repr

/-- A key of the assembled ORDER BY clause.  The code emits the string
`'dist ASC,'` (only when a center was supplied) followed by
`' trgm_dist DESC'`. -/
inductive SortKey where
  /-- the computed distance-from-center column, ascending (`dist ASC`) -/
  | distAsc
  /-- the trigram expression column, descending (`trgm_dist DESC`) -/
  | trgmDistDesc
deriving DecidableEq, Repr

/-- The parameterized query `_fetch_coordinate` assembles before executing it. -/
structure BuiltQuery where
  /-- which SQL template was chosen -/
  strategy : Strategy
  /-- the list `q` of per-field WHERE fragments -/
  conds : List String
  /-- the parameter list `v` passed to `cursor.execute` -/
  params : List String
  /-- the `trgm_dist` select expression -/
  trgmExpr : String
  /-- the joined text substituted for the per-field part of the WHERE
  clause, computed as the conditions of `q` interleaved with " AND " -/
  wherePred : String
  /-- the ORDER BY keys, in order -/
  orderKeys : List SortKey
  /-- the LIMIT value -/
  limit : Nat
deriving DecidableEq, Repr

/-- Python `list.insert(1, x)`: insert after the first element (or at the
front when the list is empty). -/
def insertAt1 (x : α) : List α → List α
  | [] => [x]
  | a :: rest => a :: x :: rest

/-- The crude query builder of `_fetch_coordinate` (geocoder.py lines
117-248), translated clause by clause:
* the loop over `['road', 'house_number']` filling `q` and `v`;
* the trigram expression (`'road <-> %s as trgm_dist'` with
  `v.insert(0, road)`, else the constant `'0 as trgm_dist'`);
* `where = ' AND '.join(q)`;
* `order_by_distance = 'dist ASC,'` exactly when a center is given, and the
  templates' `ORDER BY \x7border_by_distance\x7d trgm_dist DESC`;
* the `if 'postcode' ... elif 'city' ... else` choice of template, with the
  accompanying `v.insert(1, ...)` / `v.insert(0, ...)`.
The `country` argument is accepted (as in the Python signature) and never
read by the body. -/
def buildQuery (p : ParsedAddress) (center : Option (ℚ × ℚ))
    (country : Option String) (limit : Nat := 20) : BuiltQuery :=
  let _ := country
  let fields : List (String × Option String) :=
    [("road", p.road), ("house_number", p.house_number)]
  let q : List String :=
    fields.filterMap (fun f => f.2.map (fun _ => "b." ++ f.1 ++ " %% %s"))
  let v : List String := fields.filterMap (fun f => f.2)
  let trgmExpr : String :=
    match p.road with
    | some _ => "road <-> %s as trgm_dist"
    | none => "0 as trgm_dist"
  let v : List String :=
    match p.road with
    | some r => r :: v
    | none => v
  let wherePred : String := String.intercalate " AND " q
  let orderKeys : List SortKey :=
    match center with
    | none => [.trgmDistDesc]
    | some _ => [.distAsc, .trgmDistDesc]
  match p.postcode with
  | some pc =>
      let v := if p.road.isSome then insertAt1 pc v else pc :: v
      { strategy := .postcodeBased, conds := q, params := v,
        trgmExpr := trgmExpr, wherePred := wherePred,
        orderKeys := orderKeys, limit := limit }
  | none =>
      match p.city with
      | some ct =>
          let v := if p.road.isSome then insertAt1 ct v else ct :: v
          { strategy := .cityBased, conds := q, params := v,
            trgmExpr := trgmExpr, wherePred := wherePred,
            orderKeys := orderKeys, limit := limit }
      | none =>
          { strategy := .roadOnly, conds := q, params := v,
            trgmExpr := trgmExpr, wherePred := wherePred,
            orderKeys := orderKeys, limit := limit }

/-- A candidate row as far as ranking is concerned: the value of the
`trgm_dist` select expression and (when a center was supplied) of the
computed `dist` column. -/
structure Candidate where
  trgm_dist : ℚ
  dist : ℚ
deriving DecidableEq, Repr

/-- Is `a` strictly before `b` under a single ORDER BY key (SQL semantics:
`ASC` puts smaller values first, `DESC` larger values first)? -/
def keyBefore : SortKey → Candidate → Candidate → Prop
  | .distAsc, a, b => a.dist < b.dist
  | .trgmDistDesc, a, b => b.trgm_dist < a.trgm_dist

/-- Do `a` and `b` tie under a single ORDER BY key? -/
def keyTies : SortKey → Candidate → Candidate → Prop
  | .distAsc, a, b => a.dist = b.dist
  | .trgmDistDesc, a, b => a.trgm_dist = b.trgm_dist

/-- SQL `ORDER BY k1, k2, ...` comparison: `a` is ranked strictly before `b`
iff some key puts it strictly first while all earlier keys tie. -/
def ranksBefore : List SortKey → Candidate → Candidate → Prop
  | [], _, _ => False
  | k :: ks, a, b => keyBefore k a b ∨ (keyTies k a b ∧ ranksBefore ks a b)

instance (k : SortKey) (a b : Candidate) : Decidable (keyBefore k a b) :=
  match k with
  | .distAsc => inferInstanceAs (Decidable (a.dist < b.dist))
  | .trgmDistDesc => inferInstanceAs (Decidable (b.trgm_dist < a.trgm_dist))

instance (k : SortKey) (a b : Candidate) : Decidable (keyTies k a b) :=
  match k with
  | .distAsc => inferInstanceAs (Decidable (a.dist = b.dist))
  | .trgmDistDesc => inferInstanceAs (Decidable (a.trgm_dist = b.trgm_dist))

/-- Decision procedure for `ranksBefore`. -/
def ranksBeforeDec : ∀ (ks : List SortKey) (a b : Candidate), Decidable (ranksBefore ks a b)
  | [], _, _ => isFalse (fun h => h)
  | _ :: ks, a, b => @instDecidableOr _ _ inferInstance (@instDecidableAnd _ _ inferInstance (ranksBeforeDec ks a b))

instance (ks : List SortKey) (a b : Candidate) : Decidable (ranksBefore ks a b) :=
  ranksBeforeDec ks a b

/-- A row of the ring query of `_fetch_address`: the five address columns
plus the computed `distance` column.  For the inner query the same shape
serves as the raw row (building joined with postcode area and admin
boundary, distance-to-center precomputed); the embedding takes the
distance value as given data, standing for
`ST_Distance(b.geometry, center)`. -/
structure AddrRow where
  house : Option String := none
  road : Option String := none
  house_number : Option String := none
  postcode : Option String := none
  city : Option String := none
  distance : ℚ := 0
deriving DecidableEq, Repr

/-- The GROUP BY key of the outer query:
`(house, road, house_number, postcode, city)`. -/
def rowKey (r : AddrRow) :
    Option String × Option String × Option String × Option String × Option String :=
  (r.house, r.road, r.house_number, r.postcode, r.city)

/-- SQL `min(distance)` over the rows of one group (the group is never
empty; the `[]` case is dead). -/
def minimumDist : List ℚ → ℚ
  | [] => 0
  | d :: ds => ds.foldl min d

/-- Ordering of rows by their `distance` column (used for both
`ORDER BY ST_Distance(...)` of the inner query and
`ORDER BY min(distance)` of the outer query). -/
def distLE (a b : AddrRow) : Prop := a.distance ≤ b.distance

instance : DecidableRel distLE := fun a b => inferInstanceAs (Decidable (a.distance ≤ b.distance))

instance : IsTotal AddrRow distLE := ⟨fun a b => le_total a.distance b.distance⟩

instance : IsTrans AddrRow distLE := ⟨fun _ _ _ => le_trans⟩

/-- The outer query of `_fetch_address`:
`SELECT house, road, house_number, postcode, city, min(distance) as distance
FROM (...) n GROUP BY house, road, house_number, postcode, city
ORDER BY min(distance)`.
SQL GROUP BY semantics: one output row per distinct key occurring in the
input, aggregating the group's `distance` values with `min`; the final
ORDER BY sorts the groups by that aggregated distance. -/
def groupRows (rows : List AddrRow) : List AddrRow :=
  List.insertionSort distLE
    (((rows.map rowKey).dedup).map (fun k =>
      { house := k.1, road := k.2.1, house_number := k.2.2.1,
        postcode := k.2.2.2.1, city := k.2.2.2.2,
        distance := minimumDist
          ((rows.filter (fun r => rowKey r = k)).map (fun r => r.distance)) }))

/-- The inner query of `_fetch_address` over a table of candidate rows
(each row carrying its distance to the query center):
`WHERE ST_DWithin(b.geometry, center, radius)` keeps the rows at distance
at most `radius`; `ORDER BY ST_Distance(...)` sorts them by distance;
`LIMIT limit` keeps the first `limit` of them. -/
def innerRingRows (table : List AddrRow) (radius : ℚ) (limit : Nat) : List AddrRow :=
  (List.insertionSort distLE (table.filter (fun r => r.distance ≤ radius))).take limit

/-- The full ring query `_fetch_address` executes for one radius: the inner
distance-filtered query wrapped in the GROUP BY / min / ORDER BY outer
query.  The generator yields the resulting rows in order. -/
def ringQuery (table : List AddrRow) (radius : ℚ) (limit : Nat) : List AddrRow :=
  groupRows (innerRingRows table radius limit)

instance {ε α : Type*} [DecidableEq ε] [DecidableEq α] : DecidableEq (Except ε α) :=
  fun a b =>
    match a, b with
    | .error e, .error f => decidable_of_iff (e = f) (by simp)
    | .ok x, .ok y => decidable_of_iff (x = y) (by simp)
    | .error _, .ok _ => isFalse (by simp)
    | .ok _, .error _ => isFalse (by simp)

/-- Python `x is None` applied to a row yielded by the `_fetch_address`
generator: a yielded `RealDictRow` is never `None`. -/
def itemIsNone (_ : AddrRow) : Bool := false

/-- The loop of `reverse` (geocoder.py lines 58-61), radius list made
explicit, together with the number of ring queries issued:
`for radius in [25, 50, 100]:
item = next(self._fetch_address(merc_coordinate, radius, limit=limit));
if item is not None: return self.formatter.format(item)`.
Python `next(gen)` with no default raises `StopIteration` when the
generator is exhausted, and `reverse` (a plain function) does not catch it.
Falling out of the loop returns Python `None` (absent).  The formatter is
an external capability, so the loop is modelled up to the row it would
format. -/
def reverseLoop (table : List AddrRow) (limit : Nat) :
    List ℚ → Except PyError (Option AddrRow) × Nat
  | [] => (.ok none, 0)
  | radius :: rest =>
      match ringQuery table radius limit with
      | [] => (.error .stopIteration, 1)
      | item :: _ =>
          if itemIsNone item then
            let r := reverseLoop table limit rest
            (r.1, r.2 + 1)
          else
            (.ok (some item), 1)

/-- `reverse(lat, lon, limit)` after the one-time projection of the center:
the radius-escalation loop over the literal list `[25, 50, 100]`.  Returns
the outcome (row to format, absent, or uncaught exception) paired with how
many ring queries were issued. -/
def reverseRun (table : List AddrRow) (limit : Nat := 10) :
    Except PyError (Option AddrRow) × Nat :=
  reverseLoop table limit [25, 50, 100]

/-- The rest of `_fetch_coordinate` after the parse step: build the query
from the parsed address and hand it to the database.  The database is an
external capability, abstracted as a function from the built query to the
row list the cursor yields. -/
def fetchCoordinate (dbExec : BuiltQuery → List AddrRow)
    (transport : TransportResult) (search_term : String)
    (center : Option (ℚ × ℚ)) (country : Option String) (limit : Nat := 20) :
    Except PyError (List AddrRow) :=
  match parseStep search_term transport with
  | .error e => .error e
  | .ok parsed => .ok (dbExec (buildQuery parsed center country limit))

/-- `forward(address, country, center)`: project the center (projection and
formatter are external capabilities, taken as function parameters), fetch
the coordinate rows, and map each row through the formatter.  The
embedding returns the formatted rows in query order. -/
def forward (dbExec : BuiltQuery → List AddrRow) (fmt : AddrRow → String)
    (proj : ℚ × ℚ → ℚ × ℚ) (transport : TransportResult)
    (address : String) (country : Option String) (center : Option (ℚ × ℚ)) :
    Except PyError (List String) :=
  let merc_coordinate := center.map proj
  match fetchCoordinate dbExec transport address merc_coordinate country with
  | .error e => .error e
  | .ok rows => .ok (rows.map fmt)

/-- All three SQL templates of `_fetch_coordinate` emit the `WHERE` keyword
unconditionally; the road-only template renders it as `WHERE` directly
followed by the joined per-field predicate text (the other two append
`AND (...)` around it).  The SQL grammar requires a nonempty boolean
expression after `WHERE` (and inside `(...)`), so the emitted query is
syntactically well-formed — a precondition for executing without a syntax
error — exactly when the rendered predicate text is nonempty. -/
def whereWellFormed (bq : BuiltQuery) : Bool := bq.wherePred != ""

/-- The parsed address with no fields at all (a query with no road, city,
house number, or postcode). -/
def emptyAddress : ParsedAddress := ⟨none, none, none, none⟩

/-- Reverse-geocode fixture: one building 40 units away and one 90 units
away, so the ring query is empty at radius 25, has one grouped result at
radius 50, and two at radius 100. -/
def escalationTable : List AddrRow :=
  [{ house := some "Near House", road := some "Near Road", distance := 40 },
   { house := some "Far House", road := some "Far Road", distance := 90 }]

/-- Reverse-geocode fixture: the only building is 500 units away, so the
ring queries at radii 25, 50 and 100 all return zero rows. -/
def noMatchTable : List AddrRow :=
  [{ house := some "Remote House", road := some "Remote Road", distance := 500 }]

/-!
Helper lemmas.
-/

theorem countP_eq_one_of_nodup_of_mem {α : Type*} [DecidableEq α] {l : List α} {a : α}
    (nd : l.Nodup) (h : a ∈ l) : l.countP (fun x => x = a) = 1 := by
  induction l with
  | nil => simp at h
  | cons x xs ih =>
      rw [List.countP_cons]
      rcases List.mem_cons.mp h with rfl | hmem
      · have h0 : xs.countP (fun y => y = a) = 0 :=
          List.countP_eq_zero.mpr (fun b hb => by
            simp only [decide_eq_true_eq]
            rintro rfl
            exact (List.nodup_cons.mp nd).1 hb)
        simp [h0]
      · have hne : ¬x = a := by
          rintro rfl
          exact (List.nodup_cons.mp nd).1 hmem
        have hrec := ih (List.nodup_cons.mp nd).2 hmem
        simp [hrec, hne]

theorem minimumDist_foldl_le (ds : List ℚ) :
    ∀ init : ℚ, ds.foldl min init ≤ init ∧ ∀ d ∈ ds, ds.foldl min init ≤ d := by
  induction ds with
  | nil => intro init; simp
  | cons d ds ih =>
      intro init
      refine ⟨le_trans (ih (min init d)).1 (min_le_left _ _), ?_⟩
      intro e he
      rcases List.mem_cons.mp he with rfl | hmem
      · exact le_trans (ih (min init e)).1 (min_le_right _ _)
      · exact (ih (min init d)).2 e hmem

theorem minimumDist_foldl_mem (ds : List ℚ) :
    ∀ init : ℚ, ds.foldl min init = init ∨ ds.foldl min init ∈ ds := by
  induction ds with
  | nil => intro init; simp
  | cons d ds ih =>
      intro init
      rcases ih (min init d) with h | h
      · rcases min_cases init d with ⟨hm, _⟩ | ⟨hm, _⟩
        · exact Or.inl (by rw [List.foldl_cons, h, hm])
        · exact Or.inr (by rw [List.foldl_cons, h, hm]; exact List.mem_cons_self d ds)
      · exact Or.inr (List.mem_cons_of_mem d h)

theorem minimumDist_le {ds : List ℚ} : ∀ d ∈ ds, minimumDist ds ≤ d := by
  intro d hd
  match ds, hd with
  | e :: es, hd =>
      rcases List.mem_cons.mp hd with rfl | hmem
      · exact (minimumDist_foldl_le es d).1
      · exact (minimumDist_foldl_le es e).2 d hmem

theorem minimumDist_mem {ds : List ℚ} (h : ds ≠ []) : minimumDist ds ∈ ds := by
  match ds, h with
  | e :: es, _ =>
      show es.foldl min e ∈ e :: es
      rcases minimumDist_foldl_mem es e with hm | hm
      · rw [hm]; exact List.mem_cons_self e es
      · exact List.mem_cons_of_mem e hm

theorem rowKey_mk (k : Option String × Option String × Option String ×
    Option String × Option String) (d : ℚ) :
    rowKey { house := k.1, road := k.2.1, house_number := k.2.2.1,
             postcode := k.2.2.2.1, city := k.2.2.2.2, distance := d } = k := rfl

/-!
Claim theorems.
-/

/-- C3: for every raw query string, if the call to the segmentation endpoint
fails with a transport failure (connection refused, connect timeout) or
returns any non-success HTTP status, the parse step falls back silently to
a parsed address whose only field is `road = rawQuery`, and the forward
resolution pipeline continues without surfacing an error to the caller. -/
theorem parserFallback (t : String) :
    (parseStep t .connRefused = .ok ⟨some t, none, none, none⟩) ∧
    (parseStep t .connectTimeout = .ok ⟨some t, none, none, none⟩) ∧
    (∀ (s : Nat) (body : List ParsedAddress), s ≠ 200 →
      parseStep t (.response s body) = .ok ⟨some t, none, none, none⟩) ∧
    (∀ (dbExec : BuiltQuery → List AddrRow) (center : Option (ℚ × ℚ))
       (country : Option String) (limit : Nat),
      fetchCoordinate dbExec .connRefused t center country limit =
        .ok (dbExec (buildQuery ⟨some t, none, none, none⟩ center country limit))) := by
  refine ⟨rfl, rfl, ?_, ?_⟩
  · intro s body hs
    simp [parseStep, hs]
  · intro dbExec center country limit
    rfl

/-- Witness for C3 at the spec's example input: an unreachable endpoint and
the raw query string Main St 5, plus a non-success HTTP status 500. -/
theorem parserFallback_spot :
    parseStep "Main St 5" .connRefused = .ok ⟨some "Main St 5", none, none, none⟩ ∧
    parseStep "Main St 5" (.response 500 []) = .ok ⟨some "Main St 5", none, none, none⟩ :=
  ⟨(parserFallback "Main St 5").1,
   (parserFallback "Main St 5").2.2.1 500 [] (by decide)⟩

/-- C4: for every parsed address, the query builder selects exactly one
strategy by first-match precedence — postcode-based whenever `postcode` is
present (regardless of other fields), city-based whenever `city` is present
but `postcode` is not, and road-only when neither is present. -/
theorem strategySelection (p : ParsedAddress) (center : Option (ℚ × ℚ))
    (country : Option String) (limit : Nat) :
    (p.postcode.isSome →
      (buildQuery p center country limit).strategy = .postcodeBased) ∧
    (p.postcode = none → p.city.isSome →
      (buildQuery p center country limit).strategy = .cityBased) ∧
    (p.postcode = none → p.city = none →
      (buildQuery p center country limit).strategy = .roadOnly) := by
  refine ⟨?_, ?_, ?_⟩
  · intro h
    rcases Option.isSome_iff_exists.mp h with ⟨pc, hpc⟩
    simp [buildQuery, hpc]
  · intro hpc h
    rcases Option.isSome_iff_exists.mp h with ⟨ct, hct⟩
    simp [buildQuery, hpc, hct]
  · intro hpc hct
    simp [buildQuery, hpc, hct]

/-- Witness for C4: a parsed address with all fields selects postcode-based;
city without postcode selects city-based; road alone selects road-only. -/
theorem strategySelection_spot :
    (buildQuery ⟨some "Main St", some "5", some "12345", some "Berlin"⟩
      none none 20).strategy = .postcodeBased ∧
    (buildQuery ⟨some "Main St", none, none, some "Berlin"⟩
      none none 20).strategy = .cityBased ∧
    (buildQuery ⟨some "Main St", none, none, none⟩
      none none 20).strategy = .roadOnly :=
  ⟨(strategySelection ⟨some "Main St", some "5", some "12345", some "Berlin"⟩
      none none 20).1 rfl,
   (strategySelection ⟨some "Main St", none, none, some "Berlin"⟩
      none none 20).2.1 rfl rfl,
   (strategySelection ⟨some "Main St", none, none, none⟩
      none none 20).2.2 rfl rfl⟩

/-- C5: for every constructed forward query, with no center the ORDER BY
clause is the descending trigram key alone (so the candidate whose trigram
expression values 9/10 ranks before the one valuing 4/10); with a center an
ascending distance key is prepended ahead of the descending trigram key;
the trigram key is always the last key, hence the final tie-break. -/
theorem rankingOrder (p : ParsedAddress) (country : Option String) (limit : Nat) :
    ((buildQuery p none country limit).orderKeys = [.trgmDistDesc]) ∧
    (∀ pt : ℚ × ℚ,
      (buildQuery p (some pt) country limit).orderKeys = [.distAsc, .trgmDistDesc]) ∧
    (∀ a b : Candidate,
      ranksBefore [.trgmDistDesc] a b ↔ b.trgm_dist < a.trgm_dist) ∧
    (∀ a b : Candidate,
      ranksBefore [.distAsc, .trgmDistDesc] a b ↔
        (a.dist < b.dist ∨ (a.dist = b.dist ∧ b.trgm_dist < a.trgm_dist))) ∧
    (∀ c : Option (ℚ × ℚ),
      ((buildQuery p c country limit).orderKeys).getLast? = some .trgmDistDesc) ∧
    ranksBefore [.trgmDistDesc] ⟨9/10, 0⟩ ⟨4/10, 0⟩ := by
  have hkeys : ∀ c : Option (ℚ × ℚ), (buildQuery p c country limit).orderKeys =
      match c with
      | none => [.trgmDistDesc]
      | some _ => [.distAsc, .trgmDistDesc] := by
    intro c
    cases hpc : p.postcode <;> cases hct : p.city <;> cases c <;>
      simp [buildQuery, hpc, hct]
  refine ⟨hkeys none, fun pt => hkeys (some pt), ?_, ?_, ?_, ?_⟩
  · intro a b
    simp [ranksBefore, keyBefore]
  · intro a b
    simp [ranksBefore, keyBefore, keyTies]
  · intro c
    cases c <;> simp [hkeys]
  · simp only [ranksBefore, keyBefore]
    left
    norm_num

/-- Witness for C5 at a concrete query and a concrete pair of candidates. -/
theorem rankingOrder_spot :
    (buildQuery ⟨some "Main St", none, none, none⟩ none none 20).orderKeys =
      [.trgmDistDesc] ∧
    ranksBefore [.trgmDistDesc] ⟨9/10, 0⟩ ⟨4/10, 0⟩ :=
  ⟨(rankingOrder ⟨some "Main St", none, none, none⟩ none 20).1,
   (rankingOrder ⟨some "Main St", none, none, none⟩ none 20).2.2.2.2.2⟩

/-- C8: the `country` argument of `forward` is accepted but never read: two
runs differing only in `country` build the same query with the same
parameters and return the identical result list. -/
theorem countryNoninterference (dbExec : BuiltQuery → List AddrRow)
    (fmt : AddrRow → String) (proj : ℚ × ℚ → ℚ × ℚ)
    (transport : TransportResult) (address : String)
    (center : Option (ℚ × ℚ)) (c₁ c₂ : Option String) :
    (∀ (p : ParsedAddress) (mc : Option (ℚ × ℚ)) (limit : Nat),
      buildQuery p mc c₁ limit = buildQuery p mc c₂ limit) ∧
    forward dbExec fmt proj transport address c₁ center =
      forward dbExec fmt proj transport address c₂ center :=
  ⟨fun _ _ _ => rfl, rfl⟩

/-- Witness for C8 at a concrete pair of runs differing only in `country`. -/
theorem countryNoninterference_spot :
    forward (fun _ => []) (fun _ => "formatted") id .connRefused
      "Main St 5" (some "de") none =
    forward (fun _ => []) (fun _ => "formatted") id .connRefused
      "Main St 5" none none :=
  (countryNoninterference (fun _ => []) (fun _ => "formatted") id .connRefused
    "Main St 5" none (some "de") none).2

/-- C10: a successful-but-empty parser response is not covered by the
fallback: on HTTP 200 with an empty JSON array the parse step raises
IndexError (indexing the first element of an empty list) and forward
resolution surfaces it, instead of falling back to the road-only parsed
address; on HTTP 200 with a nonempty array the first element is used. -/
theorem emptyParserResponse (t : String) :
    (parseStep t (.response 200 []) = .error .indexError) ∧
    (∀ (dbExec : BuiltQuery → List AddrRow) (center : Option (ℚ × ℚ))
       (country : Option String) (limit : Nat),
      fetchCoordinate dbExec (.response 200 []) t center country limit =
        .error .indexError) ∧
    (∀ (a : ParsedAddress) (rest : List ParsedAddress),
      parseStep t (.response 200 (a :: rest)) = .ok a) :=
  ⟨rfl, fun _ _ _ _ => rfl, fun _ _ => rfl⟩

/-- Witness for C10 at the concrete raw query of the spec's example. -/
theorem emptyParserResponse_spot :
    parseStep "Main St 5" (.response 200 []) = .error .indexError :=
  (emptyParserResponse "Main St 5").1

/-- C7: within a single ring query, all raw rows sharing the same
`(house, road, house_number, postcode, city)` tuple are collapsed into
exactly one grouped row whose distance is the minimum distance among the
group's rows, and the grouped rows are ordered by ascending minimum
distance; in particular two raw rows with identical tuples and distances
12 and 30 yield exactly one grouped row with distance 12. -/
theorem dedupAggregation (rows : List AddrRow) :
    (∀ k ∈ rows.map rowKey,
      (groupRows rows).countP (fun g => rowKey g = k) = 1) ∧
    (∀ g ∈ groupRows rows,
      g.distance ∈ (rows.filter (fun r => rowKey r = rowKey g)).map
          (fun r => r.distance) ∧
      ∀ d ∈ (rows.filter (fun r => rowKey r = rowKey g)).map
          (fun r => r.distance), g.distance ≤ d) ∧
    List.Sorted distLE (groupRows rows) ∧
    groupRows [⟨some "H", some "R", some "1", some "P", some "C", 12⟩,
               ⟨some "H", some "R", some "1", some "P", some "C", 30⟩] =
      [⟨some "H", some "R", some "1", some "P", some "C", 12⟩] := by
  refine ⟨?_, ?_, ?_, by decide⟩
  · intro k hk
    show ((groupRows rows).countP (fun g => rowKey g = k)) = 1
    rw [groupRows, List.Perm.countP_eq _ (List.perm_insertionSort _ _),
      List.countP_map]
    have hcomp : ((fun g => decide (rowKey g = k)) ∘ (fun k' =>
        ({ house := k'.1, road := k'.2.1, house_number := k'.2.2.1,
           postcode := k'.2.2.2.1, city := k'.2.2.2.2,
           distance := minimumDist
             ((rows.filter (fun r => rowKey r = k')).map
               (fun r => r.distance)) } : AddrRow))) =
        fun k' => decide (k' = k) := rfl
    rw [hcomp]
    exact countP_eq_one_of_nodup_of_mem (List.nodup_dedup _)
      (List.mem_dedup.mpr hk)
  · intro g hg
    have hmem : g ∈ ((rows.map rowKey).dedup).map (fun k =>
        ({ house := k.1, road := k.2.1, house_number := k.2.2.1,
           postcode := k.2.2.2.1, city := k.2.2.2.2,
           distance := minimumDist
             ((rows.filter (fun r => rowKey r = k)).map
               (fun r => r.distance)) } : AddrRow)) :=
      (List.perm_insertionSort distLE _).mem_iff.mp hg
    rcases List.mem_map.mp hmem with ⟨k, hk, rfl⟩
    rw [rowKey_mk]
    have hne : (rows.filter (fun r => rowKey r = k)).map
        (fun r => r.distance) ≠ [] := by
      rcases List.mem_map.mp (List.mem_dedup.mp hk) with ⟨r, hr, hrk⟩
      have hfil : r ∈ rows.filter (fun r => rowKey r = k) :=
        List.mem_filter.mpr ⟨hr, by simp [hrk]⟩
      exact List.ne_nil_of_mem (List.mem_map.mpr ⟨r, hfil, rfl⟩)
    exact ⟨minimumDist_mem hne, minimumDist_le⟩
  · show List.Sorted distLE (List.insertionSort distLE _)
    exact List.sorted_insertionSort distLE _

/-- Witness for C7: applying the theorem to the two-row example discharges
the membership hypothesis of the exactly-one-grouped-row property at the
concrete key. -/
theorem dedupAggregation_spot :
    (groupRows [⟨some "H", some "R", some "1", some "P", some "C", 12⟩,
                ⟨some "H", some "R", some "1", some "P", some "C", 30⟩]).countP
      (fun g => rowKey g =
        (some "H", some "R", some "1", some "P", some "C")) = 1 :=
  (dedupAggregation
    [⟨some "H", some "R", some "1", some "P", some "C", 12⟩,
     ⟨some "H", some "R", some "1", some "P", some "C", 30⟩]).1
    (some "H", some "R", some "1", some "P", some "C") (by decide)

/-- C1 (code bug): on the fixture where the ring query at radius 25 is
empty, at radius 50 yields one grouped result and at radius 100 two,
`reverse` does not escalate as claimed: `next` on the exhausted radius-25
generator raises StopIteration, which propagates out of `reverse` after
exactly one ring query — not two queries and the radius-50 result. -/
theorem radiusEscalation_bug :
    ringQuery escalationTable 25 10 = [] ∧
    (ringQuery escalationTable 50 10).length = 1 ∧
    (ringQuery escalationTable 100 10).length = 2 ∧
    reverseRun escalationTable 10 = (.error .stopIteration, 1) := by decide

/-- C2 (code bug): on the fixture where the ring queries at radii 25, 50
and 100 all return zero rows, `reverse` does not return absent: it raises
StopIteration at the first empty radius, after exactly one ring query. -/
theorem noMatchTerminal_bug :
    ringQuery noMatchTable 25 10 = [] ∧
    ringQuery noMatchTable 50 10 = [] ∧
    ringQuery noMatchTable 100 10 = [] ∧
    reverseRun noMatchTable 10 = (.error .stopIteration, 1) := by decide

/-- C6 counterexample: for the parsed address with no fields, the built
road-only query renders the WHERE predicate as the empty string, so the
emitted SQL is not well-formed — executing it is a syntax error, not a
successful unfiltered scan. -/
theorem degenerateScan_cex :
    ¬ whereWellFormed (buildQuery emptyAddress none none 20) = true := by decide

/-- C6 amended: for a parsed address with no road, house number, city, or
postcode, the road-only strategy is selected with no filter conditions, no
parameters, the constant trigram expression, and the given LIMIT — but the
WHERE predicate renders empty, so the emitted query is malformed SQL and
executing it fails with a syntax error rather than succeeding. -/
theorem degenerateScan :
    (buildQuery emptyAddress none none 20).strategy = .roadOnly ∧
    (buildQuery emptyAddress none none 20).conds = [] ∧
    (buildQuery emptyAddress none none 20).params = [] ∧
    (buildQuery emptyAddress none none 20).trgmExpr = "0 as trgm_dist" ∧
    (buildQuery emptyAddress none none 20).limit = 20 ∧
    (buildQuery emptyAddress none none 20).wherePred = "" ∧
    whereWellFormed (buildQuery emptyAddress none none 20) = false := by decide

end OsmGeocoder
